import Mathlib

/-!
# Verification of the quickstartup-template repository

Shallow embedding of the two source files of the repository:

* `src/project_name/quickstartup/models.py` — the data layer (`Page`,
  `Contact`, `User`/`UserManager`, activation-key workflow, contact
  notification hook);
* `src/gencc.py` — the cookiecutter template generator (per-line quoted
  substitution driven by the settings manifest).

Machine-independent conventions used throughout:

* timestamps are `Nat` values counted in seconds (`datetime.timedelta(days=d)`
  becomes `d * 86400` seconds); comparisons are exact, as in Python;
* fallible Python code is embedded with an explicit `PyError` outcome;
  operations that mutate the database thread the database and return the
  events (row persists, signal emissions) they produced, in order;
* SHA-1 is implemented bit-faithfully over `Nat` with explicit `% 2 ^ 32`.
-/

set_option autoImplicit false

/-- Python exception outcomes that the embedded code can produce.
`attributeError` models `AttributeError`, `valueError` models the
`ValueError` raised by `UserManager.create_user`, `doesNotExist` and
`multipleObjectsReturned` model the ORM exceptions of `Manager.get`. -/
inductive PyError where
  | valueError
  | doesNotExist
  | multipleObjectsReturned
  | attributeError
  deriving DecidableEq, Repr

/-- The two module-level signals of `models.py` (lines 22-23):
`inactive_user_created` and `user_activated`. -/
inductive SignalKind where
  | inactiveUserCreated
  | userActivated
  deriving DecidableEq, Repr

/-! ## Python string helpers (boundary library behaviour used by models.py) -/

/-- Characters removed by Python's `str.strip()` with no argument. -/
def pyWhitespace : List Char := [' ', '\t', '\n', '\r', '\x0b', '\x0c']

/-- Models Python `str.strip()`: removes leading and trailing whitespace. -/
def pyStrip (s : String) : String :=
  String.mk (((s.data.dropWhile (pyWhitespace.contains ·)).reverse.dropWhile
    (pyWhitespace.contains ·)).reverse)

/-- Split a character list at the last occurrence of `'@'`, as in Python's
`rsplit('@', 1)`; `none` when no `'@'` occurs. -/
def splitLastAt : List Char → Option (List Char × List Char)
  | [] => none
  | c :: rest =>
    match splitLastAt rest with
    | some (n, d) => some (c :: n, d)
    | none => if c = '@' then some ([], rest) else none

/-- Models the external framework's `BaseUserManager.normalize_email`
(boundary system, called from `UserManager.create_user`, models.py line 100):
the part after the last `'@'` of the stripped email is lowercased; an email
without `'@'` is returned unchanged.  `Char.toLower` lowercases ASCII, which
covers every input used in this development. -/
def normalize_email (email : String) : String :=
  match splitLastAt (pyStrip email).data with
  | none => email
  | some (name, dom) => String.mk (name ++ '@' :: dom.map Char.toLower)

/-- UTF-8 encoding of one code point, as produced by Python's
`unicode.encode('utf-8')` (models.py line 116). -/
def utf8Bytes (c : Char) : List Nat :=
  let n := c.toNat
  if n < 0x80 then [n]
  else if n < 0x800 then [0xc0 + n / 64, 0x80 + n % 64]
  else if n < 0x10000 then
    [0xe0 + n / 4096, 0x80 + (n / 64) % 64, 0x80 + n % 64]
  else
    [0xf0 + n / 0x40000, 0x80 + (n / 4096) % 64, 0x80 + (n / 64) % 64,
      0x80 + n % 64]

/-- UTF-8 byte sequence of a string. -/
def strBytes (s : String) : List Nat :=
  s.data.foldr (fun c acc => utf8Bytes c ++ acc) []

/-! ## SHA-1 (models `hashlib.sha1(...).hexdigest()`, a boundary library
called by `UserManager._get_activation_key`, models.py lines 113-118) -/

/-- Left rotation of a 32-bit word represented as a `Nat`. -/
def rotl32 (n x : Nat) : Nat :=
  (((x % 2 ^ 32) <<< n) ||| ((x % 2 ^ 32) >>> (32 - n))) % 2 ^ 32

/-- The SHA-1 round function for round `t`. -/
def sha1F (t b c d : Nat) : Nat :=
  if t < 20 then (b &&& c) ||| ((b ^^^ 0xffffffff) &&& d)
  else if t < 40 then b ^^^ c ^^^ d
  else if t < 60 then (b &&& c) ||| (b &&& d) ||| (c &&& d)
  else b ^^^ c ^^^ d

/-- The SHA-1 round constant for round `t`. -/
def sha1K (t : Nat) : Nat :=
  if t < 20 then 0x5a827999
  else if t < 40 then 0x6ed9eba1
  else if t < 60 then 0x8f1bbcdc
  else 0xca62c1d6

/-- Big-endian byte decomposition: `k` bytes of `n`. -/
def beBytes (k n : Nat) : List Nat :=
  (List.range k).map (fun i => (n >>> (8 * (k - 1 - i))) % 256)

/-- SHA-1 message padding: append `0x80`, zeros, and the 64-bit big-endian
bit length, reaching a multiple of 64 bytes. -/
def sha1Pad (msg : List Nat) : List Nat :=
  msg ++ [0x80] ++ List.replicate ((119 - msg.length % 64) % 64) 0 ++
    beBytes 8 (msg.length * 8)

/-- Group bytes into 32-bit big-endian words. -/
def toWords : List Nat → List Nat
  | b0 :: b1 :: b2 :: b3 :: rest =>
    (b0 * 2 ^ 24 + b1 * 2 ^ 16 + b2 * 2 ^ 8 + b3) :: toWords rest
  | _ => []

/-- Split a byte list into 64-byte chunks; the fuel argument (any value at
least the list length works) makes the recursion structural. -/
def chunks64 : Nat → List Nat → List (List Nat)
  | 0, _ => []
  | _, [] => []
  | fuel + 1, l => l.take 64 :: chunks64 fuel (l.drop 64)

/-- Message-schedule extension: prepend `fuel` additional words to the
reversed word list. -/
def sha1Extend : Nat → List Nat → List Nat
  | 0, w => w
  | fuel + 1, w =>
    sha1Extend fuel
      (rotl32 1 ((w.getD 2 0) ^^^ (w.getD 7 0) ^^^ (w.getD 13 0) ^^^
        (w.getD 15 0)) :: w)

/-- The 80 SHA-1 rounds over the schedule words `ws`, starting at round
index `t`. -/
def sha1Rounds (t : Nat) (h : Nat × Nat × Nat × Nat × Nat) :
    List Nat → Nat × Nat × Nat × Nat × Nat
  | [] => h
  | w :: ws =>
    let (a, b, c, d, e) := h
    let temp := (rotl32 5 a + sha1F t b c d + e + sha1K t + w) % 2 ^ 32
    sha1Rounds (t + 1) (temp, a, rotl32 30 b, c, d) ws

/-- Process one 64-byte chunk. -/
def sha1Chunk (h : Nat × Nat × Nat × Nat × Nat) (chunk : List Nat) :
    Nat × Nat × Nat × Nat × Nat :=
  let w := (sha1Extend 64 (toWords chunk).reverse).reverse
  let (a, b, c, d, e) := sha1Rounds 0 h w
  let (h0, h1, h2, h3, h4) := h
  ((h0 + a) % 2 ^ 32, (h1 + b) % 2 ^ 32, (h2 + c) % 2 ^ 32,
    (h3 + d) % 2 ^ 32, (h4 + e) % 2 ^ 32)

/-- SHA-1 state after hashing a byte message. -/
def sha1Bytes (msg : List Nat) : Nat × Nat × Nat × Nat × Nat :=
  (chunks64 (sha1Pad msg).length (sha1Pad msg)).foldl sha1Chunk
    (0x67452301, 0xefcdab89, 0x98badcfe, 0x10325476, 0xc3d2e1f0)

/-- Lowercase hexadecimal digit character for `n < 16`. -/
def hexChar (n : Nat) : Char :=
  if n < 10 then Char.ofNat (48 + n) else Char.ofNat (87 + n)

/-- `k`-character big-endian lowercase hexadecimal rendering of `n`. -/
def toHexN (k n : Nat) : List Char :=
  (List.range k).map (fun i => hexChar ((n >>> (4 * (k - 1 - i))) % 16))

/-- Models `hashlib.sha1(msg).hexdigest()`: the 40-character lowercase
hexadecimal SHA-1 digest of a byte message. -/
def sha1Hexdigest (msg : List Nat) : String :=
  match sha1Bytes msg with
  | (h0, h1, h2, h3, h4) =>
    String.mk (toHexN 8 h0 ++ toHexN 8 h1 ++ toHexN 8 h2 ++ toHexN 8 h3 ++
      toHexN 8 h4)

/-! ## models.py module constants -/

/-- models.py line 20: `ACTIVATED = u"ALREADY_ACTIVATED"`, the consumed
sentinel stored in place of a spent activation key.  It is a module-level
constant: it is not an attribute of the `User` class or of any of its
bases. -/
def ACTIVATED : String := "ALREADY_ACTIVATED"

/-- Lowercase hexadecimal digit test, the character class `[a-f0-9]` of
`SHA1_RE` (models.py line 19). -/
def isHexLower (c : Char) : Bool :=
  ('0' ≤ c && c ≤ '9') || ('a' ≤ c && c ≤ 'f')

/-- Exactly 40 lowercase hexadecimal characters. -/
def hex40 (l : List Char) : Bool :=
  l.length == 40 && l.all isHexLower

/-- Models `SHA1_RE.search(s)` (models.py lines 19 and 130) as a Boolean:
`SHA1_RE = re.compile('^[a-f0-9]{40}$')`.  Without `re.MULTILINE`, `^`
matches only at the start of the string, and `$` matches at the end of the
string or just before a terminating newline, so the pattern accepts exactly
the 40-hex strings and the 40-hex strings followed by one `'\n'`. -/
def SHA1_RE_search (s : String) : Bool :=
  hex40 s.data ||
    (match s.data.getLast? with
     | some '\n' => hex40 s.data.dropLast
     | _ => false)

/-! ## User, UserManager (models.py lines 95-173) -/

/-- The persisted fields of `User` (models.py lines 148-155): `email`
(unique), `created` (defaults to the creation time), `is_active`
(default true), `is_staff` (default false), `activation_key` (a
`CharField` whose unset default is the empty string), together with the
`is_superuser` flag inherited from `PermissionsMixin` and the password
stored by `AbstractBaseUser.set_password` (the framework's hashing is kept
abstract: no claim inspects the stored credential). -/
structure User where
  email : String
  password : Option String
  created : Nat
  is_active : Bool
  is_staff : Bool
  is_superuser : Bool
  activation_key : String
  deriving DecidableEq, Repr

/-- One observable effect of a manager operation: a row persist
(`Model.save`) carrying the saved snapshot, or a signal emission. -/
inductive Event where
  | persist (u : User)
  | signal (s : SignalKind)
  deriving DecidableEq, Repr

/-- The user table. -/
abbrev DB := List User

/-- Models `user.save()`: rows are keyed by the unique `email`; saving a
user whose email is already present updates that row, otherwise the row is
inserted. -/
def dbSave (db : DB) (u : User) : DB :=
  if db.any (fun r => r.email == u.email) then
    db.map (fun r => if r.email == u.email then u else r)
  else
    db ++ [u]

/-- Models `self.get(activation_key=activation_key)` (models.py line 132):
`DoesNotExist` when no row matches, the row when exactly one matches,
`MultipleObjectsReturned` otherwise. -/
def getByKey (db : DB) (key : String) : Except PyError User :=
  match db.filter (fun u => u.activation_key == key) with
  | [] => .error .doesNotExist
  | [u] => .ok u
  | _ => .error .multipleObjectsReturned

/-- models.py lines 165-172, translated as the source executes.  The body
begins with `if self.activation_key == self.ACTIVATED:`; `ACTIVATED` is a
module-level constant (line 20) and is not an attribute of `User`,
`AbstractBaseUser`, `PermissionsMixin` or `models.Model`, so evaluating the
right operand `self.ACTIVATED` raises `AttributeError` before any field or
the clock is consulted.  Every call therefore produces the error outcome.
`days` is `settings.ACCOUNT_ACTIVATION_DAYS` and `now` is `timezone.now()`,
both external inputs. -/
def User.activation_key_expired (_u : User) (_days _now : Nat) :
    Except PyError Bool :=
  .error .attributeError

/-- The comparison models.py lines 165-172 were evidently meant to perform
(reading the module-level `ACTIVATED` instead of the nonexistent attribute
`self.ACTIVATED`): expired when the key equals the consumed sentinel, or
when `created` plus `days` days is less than or equal to `now` (inclusive
boundary); the implicit `return None` of the fall-through case is rendered
as `false`. -/
def User.activation_key_expired_intended (u : User) (days now : Nat) : Bool :=
  if u.activation_key = ACTIVATED then true
  else if u.created + days * 86400 ≤ now then true
  else false

/-- Truthiness of the `email` argument: Python's `if not email:` holds for
an absent (`None`) and for an empty email. -/
def emailFalsy : Option String → Bool
  | none => true
  | some s => s == ""

/-- The user record built by `UserManager.create_user` (models.py line
100): normalized email, the given active flag, every other field at its
declared default — in particular `activation_key` at the empty `CharField`
default, since `create_user` never assigns it. -/
def mkUser (now : Nat) (e : String) (pw : Option String) (active : Bool) :
    User :=
  { email := normalize_email e, password := pw, created := now,
    is_active := active, is_staff := false, is_superuser := false,
    activation_key := "" }

/-- `UserManager.create_user` (models.py lines 96-104).  Returns the
created user, the updated table, and the emitted events; on the
`ValueError` of line 98 the table is untouched and no event is emitted.
`now` models `timezone.now()`, the default of the `created` field. -/
def UserManager.create_user (db : DB) (now : Nat) (email : Option String)
    (password : Option String) (is_active : Bool) :
    Except PyError User × DB × List Event :=
  match email with
  | none => (.error .valueError, db, [])
  | some e =>
    if e == "" then (.error .valueError, db, [])
    else
      let u := mkUser now e password is_active
      (.ok u, dbSave db u, [.persist u])

/-- `UserManager.create_superuser` (models.py lines 106-111): creates an
active user, elevates it to staff and superuser, and saves again. -/
def UserManager.create_superuser (db : DB) (now : Nat) (email : Option String)
    (password : Option String) : Except PyError User × DB × List Event :=
  match UserManager.create_user db now email password true with
  | (.error e, db', ev) => (.error e, db', ev)
  | (.ok u, db', ev) =>
    let u' := { u with is_superuser := true, is_staff := true }
    (.ok u', dbSave db' u', ev ++ [.persist u'])

/-- `UserManager._get_activation_key` (models.py lines 113-118): the salt is
the first five characters of the SHA-1 hex digest of `str(random.random())`
(modelled by the input `rand`), and the key is the SHA-1 hex digest of the
salt concatenated with the UTF-8 encoded email. -/
def UserManager.getActivationKey (rand : String) (email : String) : String :=
  sha1Hexdigest (strBytes ((sha1Hexdigest (strBytes rand)).take 5 ++ email))

/-- The user snapshot stored by the second persist of
`create_inactive_user`: the `create_user` record with the freshly computed
activation key. -/
def inactiveUser (now : Nat) (rand e : String) (pw : Option String) : User :=
  { mkUser now e pw false with
      activation_key :=
        UserManager.getActivationKey rand (mkUser now e pw false).email }

/-- `UserManager.create_inactive_user` (models.py lines 120-127): creates an
inactive user through `create_user` (first persist, activation key still at
its empty default), assigns a fresh activation key and saves again (second
persist), then emits the `inactive_user_created` signal.  The
`extra_info` payload of the signal carries no information used by any
claim and is not modelled. -/
def UserManager.create_inactive_user (db : DB) (now : Nat) (rand : String)
    (email : Option String) (password : Option String) :
    Except PyError User × DB × List Event :=
  match UserManager.create_user db now email password false with
  | (.error e, db', ev) => (.error e, db', ev)
  | (.ok u, db', ev) =>
    let u' := { u with activation_key := UserManager.getActivationKey rand u.email }
    (.ok u', dbSave db' u',
      ev ++ [.persist u', .signal .inactiveUserCreated])

/-- `UserManager.activate_user` (models.py lines 129-145): when the key
matches `SHA1_RE` and a unique row holds it, the expiry check is consulted
(which, per `User.activation_key_expired`, raises); a key failing the
pattern, an unknown key, or an expired key yields no user and no change.
The success branch (activate, overwrite the key with `ACTIVATED`, save,
emit `user_activated`) is translated from lines 139-145. -/
def UserManager.activate_user (db : DB) (days now : Nat) (key : String) :
    Except PyError (Option User) × DB × List Event :=
  if SHA1_RE_search key then
    match getByKey db key with
    | .error .doesNotExist => (.ok none, db, [])
    | .error e => (.error e, db, [])
    | .ok user =>
      match user.activation_key_expired days now with
      | .error e => (.error e, db, [])
      | .ok true => (.ok none, db, [])
      | .ok false =>
        let u := { user with is_active := true, activation_key := ACTIVATED }
        (.ok (some u), dbSave db u, [.persist u, .signal .userActivated])
  else (.ok none, db, [])

/-! ## Page (models.py lines 26-47) -/

/-- The persisted fields of `Page` (models.py lines 26-32). -/
structure Page where
  name : String
  url : String
  title : String
  content : String
  template_name : String
  registration_required : Bool
  deriving DecidableEq, Repr

/-- Remove leading and trailing `'-'` characters, as Python's
`str.strip("-")`. -/
def trimDashes (l : List Char) : List Char :=
  ((l.dropWhile (· == '-')).reverse.dropWhile (· == '-')).reverse

/-- The name derived from a URL by `Page.save` (models.py line 45):
`self.url.replace("/", "-").strip("-")`. -/
def deriveName (url : String) : String :=
  String.mk (trimDashes (url.data.map (fun c => if c = '/' then '-' else c)))

/-- `Page.save` (models.py lines 43-47): when `name` is empty (falsy), it is
derived from `url` before the framework persists the row; the returned page
is the snapshot that is persisted. -/
def Page.save (p : Page) : Page :=
  if p.name = "" then { p with name := deriveName p.url } else p

/-! ## Contact and the notification hook (models.py lines 59-92) -/

/-- The fields of `Contact` used by the notification hook (models.py lines
59-66); `status` is one of the `CONTACT_STATUS` codes. -/
structure Contact where
  status : String
  name : String
  email : String
  phone : String
  message : String
  deriving DecidableEq, Repr

/-- An outbound message as built by `EmailMessage` in `send_contact_mail`
(models.py lines 80-86), with the `Reply-To` header made explicit. -/
structure EmailMsg where
  subject : String
  body : String
  from_email : String
  toAddrs : List String
  replyTo : String
  deriving DecidableEq, Repr

/-- `send_contact_mail` (models.py lines 69-88): nothing on an update
(`created` false); on a creation, exactly one message whose subject is
`"New Contact from %s" % PROJECT_NAME`, whose body is the formatted
template of lines 73-78, sent from the submitter's email to the configured
project contact, with `Reply-To` set to the submitter's email.  The send is
`fail_silently=True`; delivery is modelled as the list of messages
handed to the transport. -/
def send_contact_mail (projectName projectContact : String) (inst : Contact)
    (created : Bool) : List EmailMsg :=
  if !created then []
  else
    [{ subject := "New Contact from " ++ projectName,
       body := "Contact From: " ++ inst.name ++ " <" ++ inst.email ++
         ">\nPhone: " ++ inst.phone ++ "\nMessage:\n" ++ inst.message,
       from_email := inst.email,
       toAddrs := [projectContact],
       replyTo := inst.email }]

/-- The module-level registration of models.py lines 91-92: the hook is
connected to the post-save trigger of `Contact` exactly when
`settings.DEFAULT_TRANSACTIONAL_EMAIL.get("contact")` is truthy, so a save
event reaches `send_contact_mail` only when the flag is enabled. -/
def contactPostSave (flagContact : Bool) (projectName projectContact : String)
    (inst : Contact) (created : Bool) : List EmailMsg :=
  if flagContact then send_contact_mail projectName projectContact inst created
  else []

/-! ## gencc.py: per-line quoted substitution (lines 13, 49-52, 83-87)

The source builds, for every substitution-table entry, the pattern
`QUOTED % key` where `QUOTED = '''["']%s["']'''` and `key` is the manifest
concrete value, and runs `re.sub(pattern, '"%s"' % value, line)`.  The
concrete value is spliced into the pattern *without* `re.escape`, so its
characters are read as regular-expression syntax.  The embedding covers the
fragment of that syntax which such patterns can produce from ordinary
manifest values: literal characters and the metacharacter `.` (any
character except a newline).  Values containing any other metacharacter,
or a `'{'` — which can open a repetition such as `a{2}` or `a{,2}` — are
outside the modelled fragment, and `valueAtoms` rejects them; no theorem
below speaks about those values. -/

/-- One atom of the spliced value, as the regex engine reads it. -/
inductive RAtom where
  | lit (c : Char)
  | any
  deriving DecidableEq, Repr

/-- Characters that make a spliced value leave the modelled fragment: the
regex metacharacters, together with `'{'`, which Python's `re` may parse
as the start of a repetition (`{m}`, `{m,}`, `{m,n}`, `{,n}`) depending on
what follows, and so is excluded wholesale. -/
def regexSpecials : List Char :=
  ['^', '$', '*', '+', '?', '(', ')', '[', ']', '\\', '|', '{']

/-- Reading of a manifest concrete value as the regex body it becomes
inside `QUOTED % key`: `'.'` becomes the any-character atom, a plain
character becomes a literal atom, and a value using any further regex
syntax — any character of `regexSpecials` — is out of the modelled
fragment (`none`). -/
def valueAtoms : List Char → Option (List RAtom)
  | [] => some []
  | c :: rest =>
    if c = '.' then (valueAtoms rest).map (fun as => RAtom.any :: as)
    else if regexSpecials.contains c then none
    else (valueAtoms rest).map (fun as => RAtom.lit c :: as)

/-- A character matched by the class `["']` of `QUOTED`. -/
def classQuote (c : Char) : Bool :=
  c == '"' || c == '\''

/-- One atom against one character; `'.'` in Python (without `re.DOTALL`)
matches every character except `'\n'`. -/
def atomMatch : RAtom → Char → Bool
  | .lit a, c => a == c
  | .any, c => c != '\n'

/-- Match the spliced value body at the front of `l`; on success return the
rest of the input. -/
def matchBody : List RAtom → List Char → Option (List Char)
  | [], l => some l
  | _ :: _, [] => none
  | a :: as, c :: l => if atomMatch a c then matchBody as l else none

/-- Match the whole pattern `["'] value ["']` at the front of the input. -/
def quotedMatchAt (as : List RAtom) : List Char → Option (List Char)
  | [] => none
  | c :: rest =>
    if classQuote c then
      match matchBody as rest with
      | some (q :: rest2) => if classQuote q then some rest2 else none
      | _ => none
    else none

/-- Models `re.sub` for the fixed-length patterns at hand: scan left to
right, replace each leftmost non-overlapping match, and continue after the
matched region (never inside a replacement).  The fuel argument (any value
at least the input length works) makes the recursion structural. -/
def reSubGo (as : List RAtom) (repl : List Char) : Nat → List Char → List Char
  | _, [] => []
  | 0, l => l
  | fuel + 1, c :: l =>
    match quotedMatchAt as (c :: l) with
    | some rest => repl ++ reSubGo as repl fuel rest
    | none => c :: reSubGo as repl fuel l

/-- `re.sub(QUOTED % value, repl, line)` on character lists. -/
def reSubLine (as : List RAtom) (repl : List Char) (l : List Char) :
    List Char :=
  reSubGo as repl l.length l

/-- Whether the pattern `["'] value ["']` matches anywhere in the input. -/
def hasMatch (as : List RAtom) : List Char → Bool
  | [] => false
  | c :: l => (quotedMatchAt as (c :: l)).isSome || hasMatch as l

/-- The replacement text `'"%s"' % value`: the placeholder token wrapped in
double quotes. -/
def replOf (p : String) : List Char :=
  '"' :: p.data ++ ['"']

/-- The inner loop of `generate_cookiecutter` (gencc.py lines 84-87) on one
line: every table entry is applied in order, each to the previous result
(no short-circuiting); `none` when some entry's value leaves the modelled
regex fragment. -/
def lineSubChars : List (String × String) → List Char → Option (List Char)
  | [], l => some l
  | e :: t, l =>
    match valueAtoms e.1.data with
    | none => none
    | some as => lineSubChars t (reSubLine as (replOf e.2) l)

/-- Per-line substitution of `generate_cookiecutter` on strings. -/
def generate_cookiecutter_line (table : List (String × String))
    (line : String) : Option String :=
  (lineSubChars table line.data).map String.mk

/-- `load_settings` (gencc.py lines 49-52): the manifest mapping
placeholder-key to concrete-value is inverted into a substitution table
from concrete-value to the token `{{cookiecutter.<key>}}` (dict iteration
order is modelled by the list order; duplicate concrete values are kept
here rather than collapsed, which no claim depends on). -/
def load_settings (manifest : List (String × String)) :
    List (String × String) :=
  manifest.map (fun kv => (kv.2, "\x7b\x7bcookiecutter." ++ kv.1 ++ "\x7d\x7d"))

/-! ### The substitution as the specification words it: literal matching

`literalMatchAt`, `specSubGo` and `literal_line_sub` follow the
specification's description of the rewrite — "a quoted substring is
rewritten exactly when the text between the quotes equals the manifest
value character for character" — with the same scanning discipline as
`re.sub`.  They exist to be compared with the source-derived definitions
above. -/

/-- Literal-matching head test: a quote, the value verbatim, a quote. -/
def literalMatchAt (v : List Char) : List Char → Option (List Char)
  | [] => none
  | c :: rest =>
    if classQuote c && v.isPrefixOf rest then
      match rest.drop v.length with
      | q :: rest2 => if classQuote q then some rest2 else none
      | [] => none
    else none

/-- Literal-matching analogue of `reSubGo`. -/
def specSubGo (v repl : List Char) : Nat → List Char → List Char
  | _, [] => []
  | 0, l => l
  | fuel + 1, c :: l =>
    match literalMatchAt v (c :: l) with
    | some rest => repl ++ specSubGo v repl fuel rest
    | none => c :: specSubGo v repl fuel l

/-- Literal-matching substitution over one line and the whole table. -/
def specLineChars : List (String × String) → List Char → List Char
  | [], l => l
  | e :: t, l => specLineChars t (specSubGo e.1.data (replOf e.2) l.length l)

/-- The specification's reading of the per-line substitution: literal,
character-for-character matching of the quoted value. -/
def literal_line_sub (table : List (String × String)) (line : String) :
    String :=
  String.mk (specLineChars table line.data)

/-- A character of a manifest value that the regex engine reads as itself:
not `'.'`, not a metacharacter, not `'{'`. -/
def plainChar (c : Char) : Bool :=
  !(c == '.') && !regexSpecials.contains c && !(c == '{')

/-- Decidable form of "this entry's pattern matches nowhere in `l`" (and
its value is inside the modelled fragment). -/
def entryNoMatch (l : List Char) (e : String × String) : Bool :=
  match valueAtoms e.1.data with
  | some as => !hasMatch as l
  | none => false

/-! ## Concrete instances used by counterexamples and witnesses -/

/-- The activation-key invariant the specification asserts, amended with
the empty default: empty, 40-hex, or the consumed sentinel. -/
def keyOK (u : User) : Bool :=
  u.activation_key == "" || SHA1_RE_search u.activation_key ||
    u.activation_key == ACTIVATED

/-- A well-formed 40-hex key. -/
def keyA : String := "aaaaaaaaaaaaaaaaaaaaaaaaaaaaaaaaaaaaaaaa"

/-- A second well-formed 40-hex key. -/
def keyB : String := "bbbbbbbbbbbbbbbbbbbbbbbbbbbbbbbbbbbbbbbb"

/-- A well-formed 40-hex key held by no user. -/
def keyC : String := "cccccccccccccccccccccccccccccccccccccccc"

/-- An inactive user created at time 0 holding `keyA`; with one activation
day, the key is past its expiry boundary at time 86400. -/
def sampleUserExpired : User :=
  { email := "expired@example.com", password := none, created := 0,
    is_active := false, is_staff := false, is_superuser := false,
    activation_key := keyA }

/-- An inactive user created at time 0 holding `keyB`; with one activation
day, the key is unexpired at time 0. -/
def sampleUserPending : User :=
  { email := "pending@example.com", password := none, created := 0,
    is_active := false, is_staff := false, is_superuser := false,
    activation_key := keyB }

/-- The user persisted by `create_user` on email `"a@b.c"` at time 0. -/
def c2user : User :=
  { email := "a@b.c", password := none, created := 0, is_active := true,
    is_staff := false, is_superuser := false, activation_key := "" }

/-- A page saved without an explicit name whose URL is a bare slash. -/
def c3page : Page :=
  { name := "", url := "/", title := "", content := "",
    template_name := "", registration_required := false }

/-- A contact submission. -/
def contactSample : Contact :=
  { status := "N", name := "Ada", email := "ada@example.com",
    phone := "555", message := "Hi" }

/-- A substitution table whose concrete value contains the regex
metacharacter `'.'`. -/
def c4table : List (String × String) :=
  [("a.c", "\x7b\x7bcookiecutter.k\x7d\x7d")]

/-- The manifest `\x7b"k": "X"\x7d` and its substitution table. -/
def c5manifest : List (String × String) := [("k", "X")]

/-- The substitution table derived from `c5manifest` by `load_settings`. -/
def c5table : List (String × String) := load_settings c5manifest

/-- The first-run output of the substitution on the line `'X'X'`: the
leftmost quoted `X` is rewritten, and the trailing `X'` keeps a quoted `X`
that shares its opening quote with the replaced region. -/
def c5line1 : String := "\"\x7b\x7bcookiecutter.k\x7d\x7d\"X'"

/-- The manifest table of the specification's round-trip example. -/
def acmeTable : List (String × String) :=
  [("Acme", "\x7b\x7bcookiecutter.project_name\x7d\x7d")]

/-- The specification's page-name example: saved with no explicit name and
`url="/about/team"`. -/
def aboutPage : Page :=
  { name := "", url := "/about/team", title := "", content := "",
    template_name := "", registration_required := false }

/-! ## Helper lemmas -/

theorem toHexN_length (k n : Nat) : (toHexN k n).length = k := by
  simp [toHexN]

theorem isHexLower_hexChar (n : Nat) (h : n < 16) :
    isHexLower (hexChar n) = true := by
  interval_cases n <;> decide

theorem toHexN_all_hex (k n : Nat) : (toHexN k n).all isHexLower = true := by
  simp only [toHexN, List.all_eq_true, List.mem_map, List.mem_range]
  rintro c ⟨i, _, rfl⟩
  exact isHexLower_hexChar _ (Nat.mod_lt _ (by norm_num))

theorem hex40_sha1Hexdigest (msg : List Nat) :
    hex40 (sha1Hexdigest msg).data = true := by
  unfold sha1Hexdigest
  rcases h : sha1Bytes msg with ⟨h0, h1, h2, h3, h4⟩
  simp only [hex40, String.data]
  rw [Bool.and_eq_true, beq_iff_eq]
  constructor
  · simp [toHexN_length]
  · simp only [List.all_append, Bool.and_eq_true]
    exact ⟨⟨⟨⟨toHexN_all_hex _ _, toHexN_all_hex _ _⟩, toHexN_all_hex _ _⟩,
      toHexN_all_hex _ _⟩, toHexN_all_hex _ _⟩

theorem SHA1_RE_search_digest (msg : List Nat) :
    SHA1_RE_search (sha1Hexdigest msg) = true := by
  unfold SHA1_RE_search
  rw [hex40_sha1Hexdigest]
  rfl

theorem SHA1_RE_search_key (rand email : String) :
    SHA1_RE_search (UserManager.getActivationKey rand email) = true :=
  SHA1_RE_search_digest _

theorem any_dropWhile_dash (l : List Char)
    (h : l.any (fun c => c != '-') = true) :
    ((l.dropWhile (· == '-')).any (fun c => c != '-')) = true := by
  induction l with
  | nil => simp at h
  | cons c t ih =>
    by_cases hc : c = '-'
    · subst hc
      simp only [List.any_cons] at h
      simp only [List.dropWhile]
      exact ih (by simpa using h)
    · have hc' : (c == '-') = false := by simpa using hc
      simp only [List.dropWhile, hc']
      simp [hc]

theorem any_ne_nil (p : Char → Bool) (l : List Char) (h : l.any p = true) :
    l ≠ [] := by
  intro he
  subst he
  simp at h

theorem trimDashes_ne_nil (l : List Char)
    (h : l.any (fun c => c != '-') = true) : trimDashes l ≠ [] := by
  unfold trimDashes
  intro he
  have h1 := any_dropWhile_dash l h
  have h2 : ((l.dropWhile (· == '-')).reverse.any (fun c => c != '-')) =
      true := by
    simpa [List.any_reverse] using h1
  have h3 := any_dropWhile_dash _ h2
  have h4 := any_ne_nil _ _ h3
  exact h4 (by simpa [List.reverse_eq_nil_iff] using he)

theorem string_mk_ne_empty (l : List Char) (h : l ≠ []) :
    String.mk l ≠ "" := by
  intro he
  exact h (congrArg String.data he)

theorem dbSave_all (p : User → Bool) (db : DB) (u : User)
    (hdb : db.all p = true) (hu : p u = true) :
    (dbSave db u).all p = true := by
  unfold dbSave
  split
  · rw [List.all_eq_true] at hdb ⊢
    intro r hr
    rw [List.mem_map] at hr
    obtain ⟨s, hs, rfl⟩ := hr
    by_cases hse : (s.email == u.email) = true
    · simp [hse, hu]
    · simp only [hse]
      simpa using hdb s hs
  · rw [List.all_append]
    simp [hdb, hu]

theorem create_user_ok (db : DB) (now : Nat) (e : String)
    (pw : Option String) (active : Bool) (h : (e == "") = false) :
    UserManager.create_user db now (some e) pw active =
      (.ok (mkUser now e pw active), dbSave db (mkUser now e pw active),
        [.persist (mkUser now e pw active)]) := by
  unfold UserManager.create_user
  simp [h]

theorem reSubGo_no_match (as : List RAtom) (repl : List Char) :
    ∀ (fuel : Nat) (l : List Char), hasMatch as l = false →
      reSubGo as repl fuel l = l := by
  intro fuel
  induction fuel with
  | zero => intro l _; cases l <;> rfl
  | succ n ih =>
    intro l h
    cases l with
    | nil => rfl
    | cons c t =>
      unfold hasMatch at h
      rw [Bool.or_eq_false_iff] at h
      obtain ⟨h1, h2⟩ := h
      cases hm : quotedMatchAt as (c :: t) with
      | some r => rw [hm] at h1; simp at h1
      | none =>
        unfold reSubGo
        rw [hm]
        simp [ih t h2]

theorem reSubLine_no_match (as : List RAtom) (repl : List Char)
    (l : List Char) (h : hasMatch as l = false) :
    reSubLine as repl l = l :=
  reSubGo_no_match as repl l.length l h

theorem matchBody_lit (v : List Char) : ∀ l : List Char,
    matchBody (v.map RAtom.lit) l =
      if v.isPrefixOf l then some (l.drop v.length) else none := by
  induction v with
  | nil =>
    intro l
    simp [matchBody, List.isPrefixOf]
  | cons a as ih =>
    intro l
    cases l with
    | nil => simp [matchBody, List.isPrefixOf]
    | cons b bs =>
      simp only [List.map_cons, matchBody, atomMatch, List.isPrefixOf,
        ih bs, List.length_cons, List.drop_succ_cons]
      cases hab : a == b <;> simp [hab]

theorem quotedMatchAt_lit (v : List Char) (l : List Char) :
    quotedMatchAt (v.map RAtom.lit) l = literalMatchAt v l := by
  cases l with
  | nil => rfl
  | cons c rest =>
    simp only [quotedMatchAt, literalMatchAt, matchBody_lit]
    cases hq : classQuote c with
    | false => simp [hq]
    | true =>
      cases hp : v.isPrefixOf rest with
      | false => simp [hq, hp]
      | true =>
        cases hd : rest.drop v.length with
        | nil => simp [hq, hp, hd]
        | cons q r2 => simp [hq, hp, hd]

theorem reSubGo_lit (v repl : List Char) :
    ∀ (fuel : Nat) (l : List Char),
      reSubGo (v.map RAtom.lit) repl fuel l = specSubGo v repl fuel l := by
  intro fuel
  induction fuel with
  | zero => intro l; cases l <;> rfl
  | succ n ih =>
    intro l
    cases l with
    | nil => rfl
    | cons c t =>
      unfold reSubGo specSubGo
      rw [quotedMatchAt_lit]
      cases hm : literalMatchAt v (c :: t) with
      | none => simp [ih]
      | some r => simp [ih]

theorem valueAtoms_plain (v : List Char) (h : v.all plainChar = true) :
    valueAtoms v = some (v.map RAtom.lit) := by
  induction v with
  | nil => rfl
  | cons c t ih =>
    simp only [List.all_cons, Bool.and_eq_true] at h
    obtain ⟨hc, ht⟩ := h
    unfold plainChar at hc
    simp only [Bool.and_eq_true, Bool.not_eq_true'] at hc
    obtain ⟨⟨h1, h2⟩, _⟩ := hc
    unfold valueAtoms
    rw [if_neg (by simpa using h1)]
    rw [if_neg (by simp only [h2]; exact Bool.false_ne_true)]
    rw [ih ht]
    rfl

theorem lineSubChars_plain (table : List (String × String)) :
    ∀ l : List Char,
      table.all (fun e => e.1.data.all plainChar) = true →
      lineSubChars table l = some (specLineChars table l) := by
  induction table with
  | nil => intro l _; rfl
  | cons e t ih =>
    intro l h
    simp only [List.all_cons, Bool.and_eq_true] at h
    obtain ⟨he, ht⟩ := h
    unfold lineSubChars specLineChars
    rw [valueAtoms_plain _ he]
    show lineSubChars t (reSubLine (e.1.data.map RAtom.lit) (replOf e.2) l) =
      _
    rw [show reSubLine (e.1.data.map RAtom.lit) (replOf e.2) l =
      specSubGo e.1.data (replOf e.2) l.length l from reSubGo_lit _ _ _ _]
    exact ih _ ht

theorem lineSubChars_no_match (table : List (String × String)) :
    ∀ l : List Char, table.all (entryNoMatch l) = true →
      lineSubChars table l = some l := by
  induction table with
  | nil => intro l _; rfl
  | cons e t ih =>
    intro l h
    simp only [List.all_cons, Bool.and_eq_true] at h
    obtain ⟨he, ht⟩ := h
    unfold entryNoMatch at he
    cases hv : valueAtoms e.1.data with
    | none => rw [hv] at he; simp at he
    | some as =>
      rw [hv] at he
      simp only [Bool.not_eq_true'] at he
      unfold lineSubChars
      rw [hv]
      show lineSubChars t (reSubLine as (replOf e.2) l) = some l
      rw [reSubLine_no_match as (replOf e.2) l he]
      exact ih l ht

theorem create_user_cases (db : DB) (now : Nat) (email pw : Option String)
    (active : Bool) :
    (∃ err, UserManager.create_user db now email pw active =
      (.error err, db, [])) ∨
    ∃ e : String, email = some e ∧ (e == "") = false ∧
      UserManager.create_user db now email pw active =
        (.ok (mkUser now e pw active), dbSave db (mkUser now e pw active),
          [.persist (mkUser now e pw active)]) := by
  cases email with
  | none => exact Or.inl ⟨.valueError, rfl⟩
  | some e =>
    cases he : e == "" with
    | true =>
      refine Or.inl ⟨.valueError, ?_⟩
      simp [UserManager.create_user, he]
    | false => exact Or.inr ⟨e, rfl, he, create_user_ok db now e pw active he⟩

theorem keyOK_mkUser (now : Nat) (e : String) (pw : Option String)
    (active : Bool) : keyOK (mkUser now e pw active) = true := rfl

/-! ## Claim theorems -/

/-- C1 (code_bug evidence): the specification says `activate_user` raises
no error for any input key — malformed, unknown, expired and consumed keys
all yield an absent result with no mutation.  The first three cases do
behave that way, but an *expired* key of an existing user makes
`activate_user` call `activation_key_expired`, which raises
`AttributeError` (models.py line 166 reads `self.ACTIVATED`, an attribute
that does not exist; the sentinel lives at module level).  Here
`sampleUserExpired` was created at time 0 and the call happens at time
86400 with a one-day activation window, exactly the inclusive expiry
boundary: the code errors instead of returning no value. -/
theorem c1_activate_user_error_behaviour :
    UserManager.activate_user [sampleUserExpired] 1 86400 "not-a-key" =
      (.ok none, [sampleUserExpired], []) ∧
    UserManager.activate_user [sampleUserExpired] 1 86400 ACTIVATED =
      (.ok none, [sampleUserExpired], []) ∧
    UserManager.activate_user [sampleUserExpired] 1 86400 keyC =
      (.ok none, [sampleUserExpired], []) ∧
    UserManager.activate_user [sampleUserExpired] 1 86400 keyA =
      (.error .attributeError, [sampleUserExpired], []) :=
  ⟨rfl, rfl, rfl, rfl⟩

/-- C6 (code_bug evidence): the specification's expiry rule — expired
exactly when the key equals the consumed sentinel or
`created + days ≤ now`, with an inclusive boundary — is what models.py
lines 165-172 were written to compute, but the code reads
`self.ACTIVATED`, a nonexistent attribute, so every call raises
`AttributeError` instead (first conjunct).  The remaining conjuncts show
that the intended comparison satisfies the claimed rule, including the
inclusive boundary: a user created exactly one activation day before now
is expired, one second earlier is not. -/
theorem c6_expiry_rule_code_bug (u : User) (days now : Nat) :
    u.activation_key_expired days now = Except.error PyError.attributeError ∧
    (u.activation_key_expired_intended days now = true ↔
      u.activation_key = ACTIVATED ∨ u.created + days * 86400 ≤ now) ∧
    sampleUserPending.activation_key_expired_intended 1 86400 = true ∧
    sampleUserPending.activation_key_expired_intended 1 86399 = false := by
  refine ⟨rfl, ?_, by decide, by decide⟩
  unfold User.activation_key_expired_intended
  by_cases h1 : u.activation_key = ACTIVATED
  · simp [h1]
  · by_cases h2 : u.created + days * 86400 ≤ now
    · simp [h1, h2]
    · simp [h1, h2]

/-- C7 (code_bug evidence): calling `activate_user` with the consumed
sentinel itself returns no value and changes nothing (the sentinel fails
the `SHA1_RE` pattern), as claimed; but a valid, unexpired 40-hex key of
an inactive user (`sampleUserPending` at time 0, one-day window, so
unexpired under the intended rule, second conjunct) makes the code raise
`AttributeError` through `activation_key_expired` instead of activating
the user and returning it. -/
theorem c7_activation_lifecycle_code_bug :
    UserManager.activate_user [sampleUserPending] 1 0 ACTIVATED =
      (.ok none, [sampleUserPending], []) ∧
    sampleUserPending.activation_key_expired_intended 1 0 = false ∧
    UserManager.activate_user [sampleUserPending] 1 0 keyB =
      (.error .attributeError, [sampleUserPending], []) :=
  ⟨rfl, by decide, rfl⟩

/-- C2 counterexample: `create_user` persists a user whose
`activation_key` is the empty string — neither a 40-character
lowercase-hex digest nor the sentinel `ALREADY_ACTIVATED` — so the claimed
invariant fails for users produced by `create_user` (and
`create_superuser`, which persists the same key). -/
theorem c2_counterexample :
    UserManager.create_user [] 0 (some "a@b.c") none true =
      (.ok c2user, [c2user], [.persist c2user]) ∧
    c2user.activation_key = "" ∧
    SHA1_RE_search c2user.activation_key = false ∧
    c2user.activation_key ≠ ACTIVATED := by
  refine ⟨?_, rfl, by decide, by decide⟩
  rfl

/-- C2 (amended): for every persisted user, `activation_key` is the empty
string (the unset `CharField` default, as after `create_user`,
`create_superuser`, and the first persist of `create_inactive_user`), a
40-character lowercase-hex digest, or the sentinel `ALREADY_ACTIVATED`;
every `UserManager` operation preserves this predicate over the whole
table. -/
theorem c2_activation_key_invariant (db : DB) (now days : Nat)
    (rand key : String) (email pw : Option String) (active : Bool)
    (h : db.all keyOK = true) :
    (UserManager.create_user db now email pw active).2.1.all keyOK = true ∧
    (UserManager.create_superuser db now email pw).2.1.all keyOK = true ∧
    (UserManager.create_inactive_user db now rand email pw).2.1.all keyOK =
      true ∧
    (UserManager.activate_user db days now key).2.1.all keyOK = true := by
  refine ⟨?_, ?_, ?_, ?_⟩
  · rcases create_user_cases db now email pw active with ⟨err, he⟩ | ⟨e, _, _, he⟩
    · rw [he]; exact h
    · rw [he]
      exact dbSave_all _ _ _ h (keyOK_mkUser now e pw active)
  · unfold UserManager.create_superuser
    rcases create_user_cases db now email pw true with ⟨err, he⟩ | ⟨e, hm, _, he⟩
    · rw [he]; exact h
    · rw [he]
      refine dbSave_all _ _ _ (dbSave_all _ _ _ h (keyOK_mkUser now e pw true)) ?_
      rfl
  · unfold UserManager.create_inactive_user
    rcases create_user_cases db now email pw false with ⟨err, he⟩ | ⟨e, hm, _, he⟩
    · rw [he]; exact h
    · rw [he]
      refine dbSave_all _ _ _ (dbSave_all _ _ _ h (keyOK_mkUser now e pw false)) ?_
      simp [keyOK, SHA1_RE_search_key]
  · unfold UserManager.activate_user
    cases hs : SHA1_RE_search key with
    | false => simp only [hs, Bool.false_eq_true, if_false]; exact h
    | true =>
      simp only [hs, if_true]
      cases hg : getByKey db key with
      | error err => cases err <;> simp only [] <;> exact h
      | ok user =>
        simp only [User.activation_key_expired]
        exact h

/-- C2 witness: the invariant theorem applied to the empty table and a
concrete `create_inactive_user` call. -/
theorem c2_activation_key_invariant_witness :
    (([] : DB).all keyOK = true) ∧
    (UserManager.create_inactive_user [] 0 "0.123" (some "a@b.c")
      none).2.1.all keyOK = true :=
  ⟨rfl, (c2_activation_key_invariant [] 0 7 "0.123" keyA (some "a@b.c") none
    true rfl).2.2.1⟩

/-- C9: `create_user` on an absent or empty email fails with the
`ValueError` of models.py line 98 before any persist — the table is
returned unchanged and no event is emitted — and `create_superuser` and
`create_inactive_user` propagate the same error under the same
condition. -/
theorem c9_invalid_email (db : DB) (now : Nat) (rand : String)
    (email pw : Option String) (active : Bool)
    (h : email = none ∨ email = some "") :
    UserManager.create_user db now email pw active =
      (.error .valueError, db, []) ∧
    UserManager.create_superuser db now email pw =
      (.error .valueError, db, []) ∧
    UserManager.create_inactive_user db now rand email pw =
      (.error .valueError, db, []) := by
  rcases h with h | h <;> subst h
  · exact ⟨rfl, rfl, rfl⟩
  · exact ⟨rfl, rfl, rfl⟩

/-- C9 witness: the theorem applied to the empty email on the empty
table. -/
theorem c9_invalid_email_witness :
    ((some "" : Option String) = none ∨ (some "" : Option String) = some "") ∧
    UserManager.create_user [] 0 (some "") none true =
      (.error .valueError, [], []) :=
  ⟨Or.inr rfl,
    (c9_invalid_email [] 0 "0.1" (some "") none true (Or.inr rfl)).1⟩

/-- C10: `create_inactive_user` persists twice: the first persist (inside
`create_user`) stores the user with `activation_key` still at its empty
default, the second persist stores the fresh 40-hex key computed by
`_get_activation_key`, and the `inactive_user_created` signal is emitted
only after the second persist (it is the last event of the trace). -/
theorem c10_double_persist (db : DB) (now : Nat) (rand e : String)
    (pw : Option String) (h : (e == "") = false) :
    ∃ u1 u2 : User,
      UserManager.create_inactive_user db now rand (some e) pw =
        (.ok u2, dbSave (dbSave db u1) u2,
          [.persist u1, .persist u2, .signal .inactiveUserCreated]) ∧
      u1.activation_key = "" ∧
      u2 = { u1 with activation_key :=
        UserManager.getActivationKey rand u1.email } ∧
      SHA1_RE_search u2.activation_key = true := by
  refine ⟨mkUser now e pw false, inactiveUser now rand e pw, ?_, rfl, rfl, ?_⟩
  · unfold UserManager.create_inactive_user
    rw [create_user_ok db now e pw false h]
    rfl
  · simp only [inactiveUser]
    exact SHA1_RE_search_key rand (mkUser now e pw false).email

/-- C10 witness: the theorem applied to a concrete registration. -/
theorem c10_double_persist_witness :
    (("a@b.c" == "") = false) ∧
    ∃ u1 u2 : User,
      UserManager.create_inactive_user [] 0 "0.123" (some "a@b.c") none =
        (.ok u2, dbSave (dbSave [] u1) u2,
          [.persist u1, .persist u2, .signal .inactiveUserCreated]) ∧
      u1.activation_key = "" ∧
      u2 = { u1 with activation_key :=
        UserManager.getActivationKey "0.123" u1.email } ∧
      SHA1_RE_search u2.activation_key = true :=
  ⟨by decide, c10_double_persist [] 0 "0.123" "a@b.c" none (by decide)⟩

/-- C3 counterexample: a page saved without an explicit name whose URL is
`"/"` is persisted with an *empty* name — `"/".replace("/","-").strip("-")`
is `""` — so "name is populated (non-empty) before every persist" fails. -/
theorem c3_counterexample :
    c3page.name = "" ∧ c3page.url = "/" ∧ (Page.save c3page).name = "" :=
  ⟨rfl, rfl, rfl⟩

/-- C3 (amended): when a page is saved without an explicit name, `save`
derives the name from the URL by replacing slashes with hyphens and
trimming leading and trailing hyphens (so `"/about/team"` yields
`"about-team"`); the derived name is non-empty whenever the URL contains
at least one character other than `'/'` and `'-'` (a URL of only slashes
and hyphens, such as `"/"`, derives the empty name). -/
theorem c3_page_name_derivation (p : Page) (h : p.name = "") :
    (Page.save p).name = deriveName p.url ∧
    deriveName "/about/team" = "about-team" ∧
    (p.url.data.any (fun c => c != '/' && c != '-') = true →
      (Page.save p).name ≠ "") := by
  have hsave : (Page.save p).name = deriveName p.url := by
    unfold Page.save
    rw [if_pos h]
  refine ⟨hsave, by decide, ?_⟩
  intro hany
  rw [hsave]
  unfold deriveName
  apply string_mk_ne_empty
  apply trimDashes_ne_nil
  rw [List.any_map]
  rw [List.any_eq_true] at hany ⊢
  obtain ⟨c, hc, hprop⟩ := hany
  refine ⟨c, hc, ?_⟩
  rw [Bool.and_eq_true] at hprop
  obtain ⟨h1, h2⟩ := hprop
  simp only [Function.comp]
  rw [if_neg (by simpa using h1)]
  exact h2

/-- C3 witness: the amended theorem applied to the specification's
example page. -/
theorem c3_page_name_derivation_witness :
    aboutPage.name = "" ∧
    ((Page.save aboutPage).name = deriveName aboutPage.url ∧
      deriveName "/about/team" = "about-team" ∧
      (aboutPage.url.data.any (fun c => c != '/' && c != '-') = true →
        (Page.save aboutPage).name ≠ "")) :=
  ⟨rfl, c3_page_name_derivation aboutPage rfl⟩

/-- C4 counterexample: with the manifest value `"a.c"`, the line
`x = 'abc'` is rewritten — the unescaped `'.'` in the spliced value
matches `'b'` — even though `"abc"` is not character-for-character equal
to `"a.c"`; the literal reading of the substitution leaves the line
unchanged, so matching is not literal. -/
theorem c4_counterexample :
    generate_cookiecutter_line c4table "x = 'abc'" =
      some "x = \"\x7b\x7bcookiecutter.k\x7d\x7d\"" ∧
    literal_line_sub c4table "x = 'abc'" = "x = 'abc'" ∧
    ("abc" : String) ≠ "a.c" :=
  ⟨rfl, rfl, by decide⟩

/-- C4 (amended): for every line and every table entry, all entries are
applied in order with no short-circuiting, each quoted occurrence being
replaced by the double-quoted placeholder token; the match is literal
(the text between the quotes equals the manifest value character for
character) *provided* every manifest value is free of regex
metacharacters — the value is spliced into the pattern unescaped, so a
value containing `'.'` (or other regex syntax) is matched as a regular
expression, not literally. -/
theorem c4_literal_when_plain (table : List (String × String))
    (line : String)
    (h : table.all (fun e => e.1.data.all plainChar) = true) :
    generate_cookiecutter_line table line =
      some (literal_line_sub table line) := by
  unfold generate_cookiecutter_line literal_line_sub
  rw [lineSubChars_plain table line.data h]
  rfl

/-- C4 witness: the amended theorem applied to the specification's
round-trip example. -/
theorem c4_literal_when_plain_witness :
    (acmeTable.all (fun e => e.1.data.all plainChar) = true) ∧
    generate_cookiecutter_line acmeTable "PROJECT = \"Acme\"" =
      some (literal_line_sub acmeTable "PROJECT = \"Acme\"") :=
  ⟨by decide, c4_literal_when_plain acmeTable "PROJECT = \"Acme\"" (by decide)⟩

/-- C5 counterexample: the substitution is not idempotent on its own
output.  On the line `'X'X'` with manifest value `"X"`, the first run
rewrites the leftmost quoted `X` and leaves `X'` behind the replacement's
closing double quote — a *residual quoted occurrence* — so the second run
rewrites the line again. -/
theorem c5_counterexample :
    generate_cookiecutter_line c5table "'X'X'" = some c5line1 ∧
    generate_cookiecutter_line c5table c5line1 ≠ some c5line1 := by
  constructor
  · rfl
  · decide

/-- C5 (amended): applying the substitution to a line that contains no
quoted occurrence of any manifest value (no match of any entry's pattern)
leaves the line unchanged.  A first run's output need not satisfy this —
adjacent matches can share quote characters, leaving a residual quoted
occurrence (see the counterexample) — so idempotence holds only for lines
with no residual quoted concrete value, not for every first-run output. -/
theorem c5_no_residual_unchanged (table : List (String × String))
    (line : String) (h : table.all (entryNoMatch line.data) = true) :
    generate_cookiecutter_line table line = some line := by
  unfold generate_cookiecutter_line
  rw [lineSubChars_no_match table line.data h]
  rfl

/-- C5 witness: a line with no quoted occurrence of the manifest value is
left unchanged. -/
theorem c5_no_residual_unchanged_witness :
    (c5table.all (entryNoMatch ("PROJECT = X").data) = true) ∧
    generate_cookiecutter_line c5table "PROJECT = X" = some "PROJECT = X" :=
  ⟨by decide, c5_no_residual_unchanged c5table "PROJECT = X" (by decide)⟩

/-- C8: an email is produced exactly when a `Contact` is newly created
and the `"contact"` transactional-email flag is enabled — an update
(`created = false`) never notifies, a disabled flag never notifies, and a
creation with the flag enabled yields exactly one message with subject
`"New Contact from <project name>"`, from-address and `Reply-To` both the
submitter's email, and the configured project-contact address as sole
recipient. -/
theorem c8_contact_notification (flag : Bool) (pn pc : String)
    (inst : Contact) (created : Bool) :
    (created = false → contactPostSave flag pn pc inst created = []) ∧
    (flag = false → contactPostSave flag pn pc inst created = []) ∧
    (flag = true → created = true →
      contactPostSave flag pn pc inst created =
        [{ subject := "New Contact from " ++ pn,
           body := "Contact From: " ++ inst.name ++ " <" ++ inst.email ++
             ">\nPhone: " ++ inst.phone ++ "\nMessage:\n" ++ inst.message,
           from_email := inst.email,
           toAddrs := [pc],
           replyTo := inst.email }]) := by
  refine ⟨?_, ?_, ?_⟩
  · rintro rfl
    cases flag <;> rfl
  · rintro rfl
    rfl
  · rintro rfl rfl
    rfl

/-- C8 witness: the theorem applied to a concrete creation with the flag
enabled. -/
theorem c8_contact_notification_witness :
    contactPostSave true "Acme" "board@acme.example" contactSample true =
      [{ subject := "New Contact from " ++ "Acme",
         body := "Contact From: " ++ contactSample.name ++ " <" ++
           contactSample.email ++ ">\nPhone: " ++ contactSample.phone ++
           "\nMessage:\n" ++ contactSample.message,
         from_email := contactSample.email,
         toAddrs := ["board@acme.example"],
         replyTo := contactSample.email }] :=
  (c8_contact_notification true "Acme" "board@acme.example" contactSample
    true).2.2 rfl rfl
